import Mathlib

/-!
Shallow embedding of `src/advPoints.py` (Vedic astrology special-points
calculator). Degrees are modelled as exact rationals; the Python numeric
operations are embedded explicitly: `%` as `pyMod` (remainder with the sign
of the divisor), `int(...)` as `pyTrunc` (truncation toward zero), list
indexing as `pyGet` (negative indices count from the end, out of range is
`none`), dictionary lookup as an `Option`-valued table.
-/

namespace AdvPoints

/-- Python `int(q)`: truncation toward zero. -/
def pyTrunc (q : ℚ) : ℤ := if 0 ≤ q then ⌊q⌋ else ⌈q⌉

/-- Python `a % b` for `b ≠ 0`: remainder with the sign of the divisor,
`a - b * ⌊a / b⌋`. -/
def pyMod (a b : ℚ) : ℚ := a - b * ⌊a / b⌋

/-- Python list indexing `xs[i]`: a negative index counts from the end,
an out-of-range index raises `IndexError` (modelled as `none`). -/
def pyGet (xs : List String) (i : ℤ) : Option String :=
  if 0 ≤ i then xs.get? i.toNat
  else if 0 ≤ i + xs.length then xs.get? (i + xs.length).toNat
  else none

/-- The `ZODIAC_SIGNS` constant list (12 entries). -/
def ZODIAC_SIGNS : List String :=
  ["Aries", "Taurus", "Gemini", "Cancer", "Leo", "Virgo",
   "Libra", "Scorpio", "Sagittarius", "Capricorn", "Aquarius", "Pisces"]

/-- The `NAKSHATRAS` constant list (27 entries). -/
def NAKSHATRAS : List String :=
  ["Ashwini", "Bharani", "Krittika", "Rohini", "Mrigashira", "Ardra",
   "Punarvasu", "Pushya", "Ashlesha", "Magha", "Purva Phalguni",
   "Uttara Phalguni", "Hasta", "Chitra", "Swati", "Vishakha", "Anuradha",
   "Jyeshtha", "Mula", "Purva Ashadha", "Uttara Ashadha", "Shravana",
   "Dhanishta", "Shatabhisha", "Purva Bhadrapada", "Uttara Bhadrapada",
   "Revati"]

/-- `normalize_deg(deg) = deg % 360`. -/
def normalize_deg (deg : ℚ) : ℚ := pyMod deg 360

/-- Line 26 of the source: `zodiac_index = int(degree // 30)` (floor
division already yields an integer value, so `int` is the identity on it). -/
def zodiac_index (degree : ℚ) : ℤ := ⌊degree / 30⌋

/-- Line 29 of the source: `sign_degree = degree % 30`, computed on the
normalized degree. -/
def sign_degree_of (degree : ℚ) : ℚ := pyMod (normalize_deg degree) 30

/-- Line 31 of the source: `nak_index = int((degree % 360) / (360 / 27))`. -/
def nak_index (degree : ℚ) : ℤ := pyTrunc (pyMod degree 360 / (360 / 27))

/-- Line 33 of the source:
`pada = int(((degree % (360 / 27)) % (360 / 27)) / (360 / 108)) + 1`. -/
def pada_of (degree : ℚ) : ℤ :=
  pyTrunc (pyMod (pyMod degree (360 / 27)) (360 / 27) / (360 / 108)) + 1

/-- `deg_to_zodiac(degree)`: normalize, then look up sign, compute the
degree within the sign, look up nakshatra, compute the pada. A failing
list lookup (impossible for in-range indices) is `none`. -/
def deg_to_zodiac (degree : ℚ) : Option (String × String × ℤ × ℚ) :=
  let d := normalize_deg degree
  match pyGet ZODIAC_SIGNS (zodiac_index d) with
  | none => none
  | some zodiac =>
    match pyGet NAKSHATRAS (nak_index d) with
    | none => none
    | some nakshatra => some (zodiac, nakshatra, pada_of d, sign_degree_of degree)

/-- Line 40 of the source: `d = int(sign_degree)`. -/
def dms_d (sd : ℚ) : ℤ := pyTrunc sd

/-- Line 41 of the source: `m = int((sign_degree - d) * 60)`. -/
def dms_m (sd : ℚ) : ℤ := pyTrunc ((sd - dms_d sd) * 60)

/-- Line 42 of the source:
`s = int((((sign_degree - d) * 60) - m) * 60)`. -/
def dms_s (sd : ℚ) : ℤ := pyTrunc (((sd - dms_d sd) * 60 - dms_m sd) * 60)

/-- Line 43 of the source: the f-string for the DMS representation. -/
def dms_str (sd : ℚ) : String :=
  toString (dms_d sd) ++ "°" ++ toString (dms_m sd) ++ "′" ++
    toString (dms_s sd) ++ "″"

/-- `format_result(deg)`: normalize, decode, format the in-sign degree. -/
def format_result (deg : ℚ) : Option (String × String × String × ℤ) :=
  let d0 := normalize_deg deg
  match deg_to_zodiac d0 with
  | none => none
  | some (zodiac, nakshatra, pada, sign_degree) =>
    some (dms_str sign_degree, zodiac, nakshatra, pada)

/-- `calc_bhrigu_bindu(moon_deg, rahu_deg)`. -/
def calc_bhrigu_bindu (moon_deg rahu_deg : ℚ) : Option (String × String × String × ℤ) :=
  format_result ((moon_deg + rahu_deg) / 2)

/-- `calc_tithi_sphuta(sun_deg, moon_deg)`. -/
def calc_tithi_sphuta (sun_deg moon_deg : ℚ) : Option (String × String × String × ℤ) :=
  format_result (sun_deg + moon_deg)

/-- `calc_yoga_sphuta(sun, moon)`. -/
def calc_yoga_sphuta (sun moon : ℚ) : Option (String × String × String × ℤ) :=
  format_result (sun + moon)

/-- The raw avayoga degree `360 - ((sun + moon) % 360)` from line 72. -/
def avayoga_degree (sun moon : ℚ) : ℚ := 360 - pyMod (sun + moon) 360

/-- `calc_avayoga_sphuta(sun, moon) = format_result(360 - ((sun + moon) % 360))`. -/
def calc_avayoga_sphuta (sun moon : ℚ) : Option (String × String × String × ℤ) :=
  format_result (avayoga_degree sun moon)

/-- The `gulika_portions` dictionary `{0:7, 1:6, 2:5, 3:4, 4:3, 5:2, 6:1}`;
a missing key (`KeyError`) is `none`. -/
def gulika_portions (w : ℤ) : Option ℚ :=
  if w = 0 then some 7 else if w = 1 then some 6 else if w = 2 then some 5
  else if w = 3 then some 4 else if w = 4 then some 3 else if w = 5 then some 2
  else if w = 6 then some 1 else none

/-- The `mandi_portions` dictionary `{0:6, 1:5, 2:4, 3:3, 4:2, 5:1, 6:0}`. -/
def mandi_portions (w : ℤ) : Option ℚ :=
  if w = 0 then some 6 else if w = 1 then some 5 else if w = 2 then some 4
  else if w = 3 then some 3 else if w = 4 then some 2 else if w = 5 then some 1
  else if w = 6 then some 0 else none

/-- `calc_gulika(weekday, sunrise_deg)`: portion lookup, offset in minutes
`portion * (720 / 8)`, result `normalize_deg(sunrise_deg + offset_min / 4)`. -/
def calc_gulika (weekday : ℤ) (sunrise_deg : ℚ) : Option ℚ :=
  (gulika_portions weekday).map fun p =>
    normalize_deg (sunrise_deg + p * (720 / 8) / 4)

/-- `calc_mandi(weekday, sunrise_deg)`: same as `calc_gulika` with the
Mandi portion table. -/
def calc_mandi (weekday : ℤ) (sunrise_deg : ℚ) : Option ℚ :=
  (mandi_portions weekday).map fun p =>
    normalize_deg (sunrise_deg + p * (720 / 8) / 4)

/-- The pada formula as the spec words it (single modulo by the nakshatra
span, then divide by the pada span); to be compared with the source's
double-modulo `pada_of`. -/
def pada_single (degree : ℚ) : ℤ :=
  pyTrunc (pyMod degree (360 / 27) / (360 / 108)) + 1

/-! ### Helper lemmas about the Python primitives -/

lemma pyMod_nonneg (x : ℚ) {b : ℚ} (hb : 0 < b) : 0 ≤ pyMod x b := by
  unfold pyMod
  have h1 : (⌊x / b⌋ : ℚ) ≤ x / b := Int.floor_le _
  have h2 : b * (⌊x / b⌋ : ℚ) ≤ b * (x / b) :=
    mul_le_mul_of_nonneg_left h1 hb.le
  have h3 : b * (x / b) = x := by field_simp
  linarith

lemma pyMod_lt (x : ℚ) {b : ℚ} (hb : 0 < b) : pyMod x b < b := by
  unfold pyMod
  have h1 : x / b < (⌊x / b⌋ : ℚ) + 1 := Int.lt_floor_add_one _
  have h2 : b * (x / b) < b * ((⌊x / b⌋ : ℚ) + 1) :=
    (mul_lt_mul_left hb).mpr h1
  have h3 : b * (x / b) = x := by field_simp
  nlinarith

lemma pyMod_add_int_mul (x : ℚ) {b : ℚ} (hb : b ≠ 0) (k : ℤ) :
    pyMod (x + b * k) b = pyMod x b := by
  unfold pyMod
  have h1 : (x + b * k) / b = x / b + k := by field_simp; ring
  rw [h1, Int.floor_add_int]
  push_cast
  ring

lemma pyTrunc_eq_floor {q : ℚ} (h : 0 ≤ q) : pyTrunc q = ⌊q⌋ := by
  unfold pyTrunc
  exact if_pos h

lemma pyMod_pyMod (x : ℚ) {b : ℚ} (hb : 0 < b) :
    pyMod (pyMod x b) b = pyMod x b := by
  have h0 : 0 ≤ pyMod x b := pyMod_nonneg x hb
  have h1 : pyMod x b < b := pyMod_lt x hb
  set r := pyMod x b with hr
  have h2 : ⌊r / b⌋ = 0 := by
    rw [Int.floor_eq_zero_iff]
    constructor
    · exact div_nonneg h0 hb.le
    · rw [div_lt_one hb]; exact h1
  show r - b * (⌊r / b⌋ : ℚ) = r
  rw [h2]
  push_cast
  ring

lemma pyGet_isSome {xs : List String} {i : ℤ} (h0 : 0 ≤ i)
    (h1 : i < xs.length) : (pyGet xs i).isSome := by
  unfold pyGet
  rw [if_pos h0]
  have h2 : i.toNat < xs.length := by omega
  simp [List.get?_eq_getElem?, h2]

/-- For `0 ≤ r < c * b` with `0 < b`, truncating `r / b` lands in
`[0, c)`. -/
lemma pyTrunc_div_bounds (r b : ℚ) (c : ℤ) (hr0 : 0 ≤ r)
    (hb : 0 < b) (hrc : r < c * b) :
    0 ≤ pyTrunc (r / b) ∧ pyTrunc (r / b) < c := by
  have hq0 : 0 ≤ r / b := div_nonneg hr0 hb.le
  rw [pyTrunc_eq_floor hq0]
  refine ⟨Int.floor_nonneg.mpr hq0, Int.floor_lt.mpr ?_⟩
  rw [div_lt_iff₀ hb]
  exact_mod_cast hrc

lemma normalize_deg_nonneg (x : ℚ) : 0 ≤ normalize_deg x :=
  pyMod_nonneg x (by norm_num)

lemma normalize_deg_lt (x : ℚ) : normalize_deg x < 360 :=
  pyMod_lt x (by norm_num)

lemma normalize_deg_add_int_mul (x : ℚ) (k : ℤ) :
    normalize_deg (x + 360 * k) = normalize_deg x :=
  pyMod_add_int_mul x (by norm_num) k

/-- A degree already in `[0, 360)` is fixed by `normalize_deg`. -/
lemma normalize_deg_eq_self {x : ℚ} (h0 : 0 ≤ x) (h1 : x < 360) :
    normalize_deg x = x := by
  unfold normalize_deg pyMod
  have h2 : ⌊x / 360⌋ = 0 := by
    rw [Int.floor_eq_zero_iff]
    constructor
    · positivity
    · rw [div_lt_one (by norm_num)]; exact h1
  rw [h2]
  push_cast
  ring

lemma normalize_deg_normalize_deg (x : ℚ) :
    normalize_deg (normalize_deg x) = normalize_deg x :=
  normalize_deg_eq_self (normalize_deg_nonneg x) (normalize_deg_lt x)

/-- Shifting after normalization is the same as shifting before it. -/
lemma normalize_deg_shift (x c : ℚ) :
    normalize_deg (normalize_deg x + c) = normalize_deg (x + c) := by
  have h : normalize_deg x + c = (x + c) + 360 * ((-⌊x / 360⌋ : ℤ) : ℚ) := by
    unfold normalize_deg pyMod
    push_cast
    ring
  rw [h, normalize_deg_add_int_mul]

/-- The nakshatra index lies in `[0, 26]` for every (not necessarily
normalized) degree, because of the inner `% 360`. -/
lemma nak_index_bounds (d : ℚ) : 0 ≤ nak_index d ∧ nak_index d ≤ 26 := by
  unfold nak_index
  have h0 : 0 ≤ pyMod d 360 := pyMod_nonneg d (by norm_num)
  have h1 : pyMod d 360 < 360 := pyMod_lt d (by norm_num)
  have h2 := pyTrunc_div_bounds _ (360 / 27) 27 h0 (by norm_num)
    (by norm_num; linarith)
  exact ⟨h2.1, by omega⟩

/-- The pada lies in `[1, 4]` for every (not necessarily normalized)
degree, because of the inner `% (360 / 27)`. -/
lemma pada_of_bounds (d : ℚ) : 1 ≤ pada_of d ∧ pada_of d ≤ 4 := by
  unfold pada_of
  have h0 : 0 ≤ pyMod (pyMod d (360 / 27)) (360 / 27) :=
    pyMod_nonneg _ (by norm_num)
  have h1 : pyMod (pyMod d (360 / 27)) (360 / 27) < 360 / 27 :=
    pyMod_lt _ (by norm_num)
  have h2 := pyTrunc_div_bounds _ (360 / 108) 4 h0 (by norm_num)
    (by norm_num; linarith)
  omega

/-- The zodiac index of a normalized degree lies in `[0, 11]`. -/
lemma zodiac_index_bounds {d : ℚ} (h0 : 0 ≤ d) (h1 : d < 360) :
    0 ≤ zodiac_index d ∧ zodiac_index d ≤ 11 := by
  unfold zodiac_index
  constructor
  · exact Int.floor_nonneg.mpr (by positivity)
  · have h2 : ⌊d / 30⌋ < 12 := by
      refine Int.floor_lt.mpr ?_
      rw [div_lt_iff₀ (by norm_num)]
      push_cast
      linarith
    omega

/-- Reducing `deg_to_zodiac` once the two list lookups are known. -/
lemma deg_to_zodiac_eq {degree : ℚ} {z n : String}
    (hz : pyGet ZODIAC_SIGNS (zodiac_index (normalize_deg degree)) = some z)
    (hn : pyGet NAKSHATRAS (nak_index (normalize_deg degree)) = some n) :
    deg_to_zodiac degree =
      some (z, n, pada_of (normalize_deg degree), sign_degree_of degree) := by
  unfold deg_to_zodiac
  simp only []
  rw [hz, hn]

/-! ### The claims -/

/-- C2: `normalize_deg` always lands in `[0, 360)` — in particular a
negative input comes out non-negative, as with true modulo — and it is
invariant under adding any integer multiple of 360. -/
theorem normalize_deg_spec (x : ℚ) (k : ℤ) :
    0 ≤ normalize_deg x ∧ normalize_deg x < 360 ∧
      normalize_deg (x + 360 * k) = normalize_deg x :=
  ⟨normalize_deg_nonneg x, normalize_deg_lt x, normalize_deg_add_int_mul x k⟩

/-- C7: `calc_yoga_sphuta` and `calc_tithi_sphuta` share the formula
`Sun + Moon` and produce identical formatted results. -/
theorem yoga_sphuta_eq_tithi_sphuta (sun moon : ℚ) :
    calc_yoga_sphuta sun moon = calc_tithi_sphuta sun moon := rfl

/-- C8: the double modulo by the nakshatra span in the source's pada
computation is a no-op — it agrees with the single-modulo form for every
degree. -/
theorem pada_double_mod_eq_single (degree : ℚ) :
    pada_of degree = pada_single degree := by
  unfold pada_of pada_single
  rw [pyMod_pyMod degree (by norm_num)]

/-- C1: for every degree input, the zodiac index is in `[0, 11]`, the
nakshatra index in `[0, 26]` and the pada in `[1, 4]` (all computed on the
normalized degree, which is the one the source indexes with), so both list
lookups succeed and `deg_to_zodiac` returns `some`. -/
theorem deg_to_zodiac_total (degree : ℚ) :
    (0 ≤ zodiac_index (normalize_deg degree) ∧
      zodiac_index (normalize_deg degree) ≤ 11) ∧
    (0 ≤ nak_index (normalize_deg degree) ∧
      nak_index (normalize_deg degree) ≤ 26) ∧
    (1 ≤ pada_of (normalize_deg degree) ∧
      pada_of (normalize_deg degree) ≤ 4) ∧
    (deg_to_zodiac degree).isSome := by
  have hz := zodiac_index_bounds (normalize_deg_nonneg degree)
    (normalize_deg_lt degree)
  have hn := nak_index_bounds (normalize_deg degree)
  have hp := pada_of_bounds (normalize_deg degree)
  refine ⟨hz, hn, hp, ?_⟩
  have hzl : (ZODIAC_SIGNS.length : ℤ) = 12 := by rfl
  have hnl : (NAKSHATRAS.length : ℤ) = 27 := by rfl
  obtain ⟨z, hz'⟩ := Option.isSome_iff_exists.mp
    (pyGet_isSome hz.1 (by rw [hzl]; omega))
  obtain ⟨n, hn'⟩ := Option.isSome_iff_exists.mp
    (pyGet_isSome hn.1 (by rw [hnl]; omega))
  rw [deg_to_zodiac_eq hz' hn']
  rfl

/-- C3: the avayoga degree and `(sun + moon) % 360` always sum to 360;
when `(sun + moon) % 360 = 0` the avayoga degree is 360, which the decoder
wraps to Aries 0°0′0″, Ashwini, pada 1 instead of going out of range. -/
theorem avayoga_complement (sun moon : ℚ) :
    avayoga_degree sun moon + pyMod (sun + moon) 360 = 360 ∧
    (pyMod (sun + moon) 360 = 0 →
      avayoga_degree sun moon = 360 ∧
      calc_avayoga_sphuta sun moon =
        some ("0°0′0″", "Aries", "Ashwini", 1)) := by
  constructor
  · unfold avayoga_degree; ring
  · intro h
    have h360 : avayoga_degree sun moon = 360 := by
      unfold avayoga_degree; rw [h]; ring
    refine ⟨h360, ?_⟩
    unfold calc_avayoga_sphuta
    rw [h360]
    norm_num [format_result, deg_to_zodiac, normalize_deg, pyMod, pyGet,
      pyTrunc, zodiac_index, nak_index, pada_of, sign_degree_of, dms_str,
      dms_d, dms_m, dms_s, ZODIAC_SIGNS, NAKSHATRAS]
    rfl

/-- C4: degree 0 decodes to Aries / Ashwini / pada 1 / "0°0′0″"; every
degree in `[0, 30)` decodes to sign Aries; degree 30 decodes to sign
Taurus; degree `360 / 27` decodes to nakshatra Bharani with pada 1. -/
theorem decode_boundaries :
    format_result 0 = some ("0°0′0″", "Aries", "Ashwini", 1) ∧
    (∀ d : ℚ, 0 ≤ d → d < 30 →
      ∃ nak pada sd, deg_to_zodiac d = some ("Aries", nak, pada, sd)) ∧
    deg_to_zodiac 30 = some ("Taurus", "Krittika", 2, 0) ∧
    deg_to_zodiac (360 / 27) = some ("Aries", "Bharani", 1, 40 / 3) := by
  refine ⟨?_, ?_, ?_, ?_⟩
  · norm_num [format_result, deg_to_zodiac, normalize_deg, pyMod, pyGet,
      pyTrunc, zodiac_index, nak_index, pada_of, sign_degree_of, dms_str,
      dms_d, dms_m, dms_s, ZODIAC_SIGNS, NAKSHATRAS]
    rfl
  · intro d h0 h1
    have hnorm : normalize_deg d = d :=
      normalize_deg_eq_self h0 (by linarith)
    have hzi : zodiac_index d = 0 := by
      unfold zodiac_index
      rw [Int.floor_eq_zero_iff]
      constructor
      · positivity
      · rw [div_lt_one (by norm_num)]; linarith
    have hz' : pyGet ZODIAC_SIGNS (zodiac_index (normalize_deg d)) =
        some "Aries" := by
      rw [hnorm, hzi]; rfl
    have hn := nak_index_bounds d
    have hnl : (NAKSHATRAS.length : ℤ) = 27 := by rfl
    obtain ⟨n, hn'⟩ := Option.isSome_iff_exists.mp
      (pyGet_isSome hn.1 (by rw [hnl]; omega))
    have hn'' : pyGet NAKSHATRAS (nak_index (normalize_deg d)) = some n := by
      rw [hnorm]; exact hn'
    exact ⟨n, pada_of (normalize_deg d), sign_degree_of d,
      deg_to_zodiac_eq hz' hn''⟩
  · norm_num [deg_to_zodiac, normalize_deg, pyMod, pyGet, pyTrunc,
      zodiac_index, nak_index, pada_of, sign_degree_of, ZODIAC_SIGNS,
      NAKSHATRAS]
    rfl
  · norm_num [deg_to_zodiac, normalize_deg, pyMod, pyGet, pyTrunc,
      zodiac_index, nak_index, pada_of, sign_degree_of, ZODIAC_SIGNS,
      NAKSHATRAS]

/-- Witness for C4: the universally quantified conjunct applied at the
concrete in-range degree 15. -/
theorem decode_boundaries_witness :
    (0 : ℚ) ≤ 15 ∧ (15 : ℚ) < 30 ∧
    ∃ nak pada sd, deg_to_zodiac 15 = some ("Aries", nak, pada, sd) :=
  ⟨by norm_num, by norm_num,
    decode_boundaries.2.1 15 (by norm_num) (by norm_num)⟩

/-- Witness for C3: at `sun = 100`, `moon = 260` the modulo is exactly 0
and the decoder wraps to Aries 0°0′0″. -/
theorem avayoga_complement_witness :
    pyMod ((100 : ℚ) + 260) 360 = 0 ∧
    calc_avayoga_sphuta 100 260 = some ("0°0′0″", "Aries", "Ashwini", 1) := by
  have h : pyMod ((100 : ℚ) + 260) 360 = 0 := by
    norm_num [pyMod]
  exact ⟨h, ((avayoga_complement 100 260).2 h).2⟩

/-- C5: on every valid weekday the Gulika portion is `7 - w` and the
Mandi portion is `6 - w` (the source's tables in closed form), so the
results are `normalize(sunrise + portion * (720/8) / 4)`; in particular
`calc_gulika 0 90 = 247.5`. -/
theorem gulika_mandi_formula (w : ℤ) (s : ℚ) (h0 : 0 ≤ w) (h1 : w ≤ 6) :
    calc_gulika w s = some (normalize_deg (s + (7 - (w : ℚ)) * (720 / 8) / 4)) ∧
    calc_mandi w s = some (normalize_deg (s + (6 - (w : ℚ)) * (720 / 8) / 4)) ∧
    calc_gulika 0 90 = some (247.5 : ℚ) := by
  refine ⟨?_, ?_, ?_⟩
  · interval_cases w <;> norm_num [calc_gulika, gulika_portions]
  · interval_cases w <;> norm_num [calc_mandi, mandi_portions]
  · norm_num [calc_gulika, gulika_portions, normalize_deg, pyMod]

/-- Witness for C5: the formula instantiated at weekday 3, sunrise 10°. -/
theorem gulika_mandi_formula_witness :
    calc_gulika 3 10 = some (normalize_deg (10 + (7 - ((3 : ℤ) : ℚ)) * (720 / 8) / 4)) ∧
    calc_mandi 3 10 = some (normalize_deg (10 + (6 - ((3 : ℤ) : ℚ)) * (720 / 8) / 4)) ∧
    calc_gulika 0 90 = some (247.5 : ℚ) :=
  gulika_mandi_formula 3 10 (by norm_num) (by norm_num)

/-- C6: `calc_gulika` and `calc_mandi` succeed exactly on weekday indices
in `[0, 6]`; outside that range the table lookup fails (`KeyError`,
modelled as `none`). -/
theorem gulika_mandi_domain (w : ℤ) (s : ℚ) :
    ((∃ g, calc_gulika w s = some g) ↔ 0 ≤ w ∧ w ≤ 6) ∧
    ((∃ m, calc_mandi w s = some m) ↔ 0 ≤ w ∧ w ≤ 6) ∧
    (calc_gulika w s = none ↔ w < 0 ∨ 6 < w) ∧
    (calc_mandi w s = none ↔ w < 0 ∨ 6 < w) := by
  unfold calc_gulika calc_mandi gulika_portions mandi_portions
  split_ifs <;> simp_all
  omega

/-- C10: on every valid weekday, Gulika is exactly 22.5° ahead of Mandi
modulo 360, since the Gulika portion exceeds the Mandi portion by one. -/
theorem gulika_eq_mandi_add (w : ℤ) (s : ℚ) (h0 : 0 ≤ w) (h1 : w ≤ 6) :
    ∃ g m, calc_gulika w s = some g ∧ calc_mandi w s = some m ∧
      g = normalize_deg (m + 22.5) := by
  interval_cases w <;>
  · refine ⟨_, _, rfl, rfl, ?_⟩
    rw [normalize_deg_shift]
    ring_nf

/-- Witness for C10: the relation instantiated at weekday 2, sunrise 100°. -/
theorem gulika_eq_mandi_add_witness :
    ∃ g m, calc_gulika 2 100 = some g ∧ calc_mandi 2 100 = some m ∧
      g = normalize_deg (m + 22.5) :=
  gulika_eq_mandi_add 2 100 (by norm_num) (by norm_num)

/-- The DMS components of a non-negative in-sign degree are floors at
each step, and they under-approximate the degree by less than one
second. -/
lemma dms_floor_aux {sd : ℚ} (h : 0 ≤ sd) :
    dms_d sd = ⌊sd⌋ ∧
    dms_m sd = ⌊(sd - dms_d sd) * 60⌋ ∧
    dms_s sd = ⌊((sd - dms_d sd) * 60 - dms_m sd) * 60⌋ ∧
    (dms_d sd : ℚ) + (dms_m sd : ℚ) / 60 + (dms_s sd : ℚ) / 3600 ≤ sd ∧
    sd < (dms_d sd : ℚ) + (dms_m sd : ℚ) / 60 + ((dms_s sd : ℚ) + 1) / 3600 := by
  have hd : dms_d sd = ⌊sd⌋ := pyTrunc_eq_floor h
  have hd1 : (dms_d sd : ℚ) ≤ sd := by rw [hd]; exact Int.floor_le sd
  have hd2 : sd < dms_d sd + 1 := by rw [hd]; exact Int.lt_floor_add_one sd
  have hmnn : 0 ≤ (sd - dms_d sd) * 60 := by linarith
  have hm : dms_m sd = ⌊(sd - dms_d sd) * 60⌋ := pyTrunc_eq_floor hmnn
  have hm1 : (dms_m sd : ℚ) ≤ (sd - dms_d sd) * 60 := by
    rw [hm]; exact Int.floor_le _
  have hm2 : (sd - dms_d sd) * 60 < dms_m sd + 1 := by
    rw [hm]; exact Int.lt_floor_add_one _
  have hsnn : 0 ≤ ((sd - dms_d sd) * 60 - dms_m sd) * 60 := by linarith
  have hs : dms_s sd = ⌊((sd - dms_d sd) * 60 - dms_m sd) * 60⌋ :=
    pyTrunc_eq_floor hsnn
  have hs1 : (dms_s sd : ℚ) ≤ ((sd - dms_d sd) * 60 - dms_m sd) * 60 := by
    rw [hs]; exact Int.floor_le _
  have hs2 : ((sd - dms_d sd) * 60 - dms_m sd) * 60 < dms_s sd + 1 := by
    rw [hs]; exact Int.lt_floor_add_one _
  refine ⟨hd, hm, hs, ?_, ?_⟩ <;> linarith

/-- C9: the DMS components produced by `format_result` (applied to the
in-sign degree it decodes) are floors at each step — truncation, never
rounding — so `d + m/60 + s/3600 ≤ signDegree < d + m/60 + (s+1)/3600`. -/
theorem format_result_dms_truncation (deg : ℚ) :
    dms_d (sign_degree_of (normalize_deg deg)) =
      ⌊sign_degree_of (normalize_deg deg)⌋ ∧
    dms_m (sign_degree_of (normalize_deg deg)) =
      ⌊(sign_degree_of (normalize_deg deg) -
          dms_d (sign_degree_of (normalize_deg deg))) * 60⌋ ∧
    dms_s (sign_degree_of (normalize_deg deg)) =
      ⌊((sign_degree_of (normalize_deg deg) -
            dms_d (sign_degree_of (normalize_deg deg))) * 60 -
          dms_m (sign_degree_of (normalize_deg deg))) * 60⌋ ∧
    (dms_d (sign_degree_of (normalize_deg deg)) : ℚ) +
        (dms_m (sign_degree_of (normalize_deg deg)) : ℚ) / 60 +
        (dms_s (sign_degree_of (normalize_deg deg)) : ℚ) / 3600 ≤
      sign_degree_of (normalize_deg deg) ∧
    sign_degree_of (normalize_deg deg) <
      (dms_d (sign_degree_of (normalize_deg deg)) : ℚ) +
        (dms_m (sign_degree_of (normalize_deg deg)) : ℚ) / 60 +
        ((dms_s (sign_degree_of (normalize_deg deg)) : ℚ) + 1) / 3600 :=
  dms_floor_aux (pyMod_nonneg _ (by norm_num))

end AdvPoints
